import Mathlib

set_option maxRecDepth 8192

/-!
Verification of `getproblem.py`: a single script that serializes a fixed
payload with `json.dumps`, issues one HTTP POST via `requests.post`, and
prints either the decoded JSON response (`response.json()`) or one of two
error messages, matching exceptions in source order
(`requests.exceptions.Timeout` first, then
`requests.exceptions.RequestException`).

The embedding models:
- JSON values, a parser (for `response.json()`) and a serializer
  (for `json.dumps` with Python's default separators);
- the fixed request constants `url`, `headers`, `data` of the script;
- Python exception classes relevant to the script, with the class facts
  the dispatch depends on: `Timeout` is a subclass of `RequestException`;
  a JSON-decoding failure is not a `RequestException` (per the spec:
  "a successfully received non-JSON body would surface as a JSON-decoding
  failure, which is not separately handled in the source");
- the whole run as a function from the single network outcome to the pair
  (requests sent, either the printed output or an uncaught exception).
-/

/-- Left curly brace character, written via its code point. -/
def lbrace : Char := Char.ofNat 123

/-- Right curly brace character, written via its code point. -/
def rbrace : Char := Char.ofNat 125

/-- JSON values, as produced by Python's `json` module for the subset the
script exchanges: null, booleans, integers, strings, arrays, objects
(an object is the ordered field list of the Python dict). -/
inductive Json where
  | null : Json
  | bool (b : Bool) : Json
  | num (n : Int) : Json
  | str (s : String) : Json
  | arr (elems : List Json) : Json
  | obj (fields : List (String × Json)) : Json

/-- Field lookup in a JSON object, as Python's `dict.__getitem__`. -/
def Json.lookup (j : Json) (k : String) : Option Json :=
  match j with
  | .obj fields => List.lookup k fields
  | _ => none

mutual

/-- Serializer for JSON values, modelling Python `json.dumps` with the
default separators (item separator is a comma and a space, key separator
is a colon and a space). String escaping is omitted: every string the
script serializes contains no character that needs escaping. -/
def jsonDumps : Json → String
  | .null => "null"
  | .bool true => "true"
  | .bool false => "false"
  | .num n => toString n
  | .str s => "\"" ++ s ++ "\""
  | .arr xs => "[" ++ dumpsElems xs ++ "]"
  | .obj fs => String.singleton lbrace ++ dumpsFields fs ++ String.singleton rbrace

/-- Serialize array elements, comma-and-space separated. -/
def dumpsElems : List Json → String
  | [] => ""
  | [x] => jsonDumps x
  | x :: xs => jsonDumps x ++ ", " ++ dumpsElems xs

/-- Serialize object fields, comma-and-space separated, colon-and-space
between key and value. -/
def dumpsFields : List (String × Json) → String
  | [] => ""
  | [(k, v)] => "\"" ++ k ++ "\": " ++ jsonDumps v
  | (k, v) :: fs => "\"" ++ k ++ "\": " ++ jsonDumps v ++ ", " ++ dumpsFields fs

end

/-- Skip JSON whitespace. -/
def skipWs : List Char → List Char
  | c :: cs =>
    if c = ' ' ∨ c = '\t' ∨ c = '\n' ∨ c = '\r' then skipWs cs else c :: cs
  | [] => []

/-- Translate the character after a backslash in a JSON string literal.
Only the escapes the script could meet are mapped; `\u` escapes are not
modelled (no input in this development contains one). -/
def escChar (d : Char) : Char :=
  if d = 'n' then '\n' else if d = 't' then '\t' else if d = 'r' then '\r' else d

/-- Parse the body of a JSON string after the opening quote; returns the
characters of the string and the input after the closing quote. -/
def parseStrChars : List Char → Option (List Char × List Char)
  | [] => none
  | c :: cs =>
    if c = '\"' then some ([], cs)
    else if c = '\\' then
      match cs with
      | [] => none
      | d :: ds => (parseStrChars ds).map fun p => (escChar d :: p.1, p.2)
    else (parseStrChars cs).map fun p => (c :: p.1, p.2)

/-- Parse a run of decimal digits, accumulating into `acc`. -/
def parseDigits : List Char → Nat → Nat × List Char
  | c :: cs, acc =>
    if c.isDigit then parseDigits cs (acc * 10 + (c.toNat - 48)) else (acc, c :: cs)
  | [], acc => (acc, [])

mutual

/-- Fueled recursive-descent parser for one JSON value, modelling the
decoding done by `response.json()` on the subset of JSON the claims use
(floating-point literals are outside the model and fail to parse).
Returns the value and the remaining input. -/
def parseVal : Nat → List Char → Option (Json × List Char)
  | 0, _ => none
  | fuel + 1, input =>
    match skipWs input with
    | [] => none
    | c :: cs =>
      if c = '\"' then
        match parseStrChars cs with
        | some (s, r) => some (.str (String.mk s), r)
        | none => none
      else if c = lbrace then
        match skipWs cs with
        | d :: ds => if d = rbrace then some (.obj [], ds) else
            match parseMembers fuel (d :: ds) with
            | some (fs, r) => some (.obj fs, r)
            | none => none
        | [] => none
      else if c = '[' then
        match skipWs cs with
        | d :: ds => if d = ']' then some (.arr [], ds) else
            match parseElems fuel (d :: ds) with
            | some (xs, r) => some (.arr xs, r)
            | none => none
        | [] => none
      else if c = 't' then
        match cs with
        | 'r' :: 'u' :: 'e' :: r => some (.bool true, r)
        | _ => none
      else if c = 'f' then
        match cs with
        | 'a' :: 'l' :: 's' :: 'e' :: r => some (.bool false, r)
        | _ => none
      else if c = 'n' then
        match cs with
        | 'u' :: 'l' :: 'l' :: r => some (.null, r)
        | _ => none
      else if c = '-' then
        match cs with
        | d :: ds =>
          if d.isDigit then
            let p := parseDigits ds (d.toNat - 48)
            some (.num (-(Int.ofNat p.1)), p.2)
          else none
        | [] => none
      else if c.isDigit then
        let p := parseDigits cs (c.toNat - 48)
        some (.num (Int.ofNat p.1), p.2)
      else none

/-- Parse the members of a JSON object after its opening brace, knowing the
object is nonempty; returns the fields and the input after the closing
brace. -/
def parseMembers : Nat → List Char → Option (List (String × Json) × List Char)
  | 0, _ => none
  | fuel + 1, input =>
    match skipWs input with
    | [] => none
    | c :: cs =>
      if c = '\"' then
        match parseStrChars cs with
        | some (k, r1) =>
          match skipWs r1 with
          | d :: r2 =>
            if d = ':' then
              match parseVal fuel r2 with
              | some (v, r3) =>
                match skipWs r3 with
                | e :: r4 =>
                  if e = ',' then
                    match parseMembers fuel r4 with
                    | some (fs, r5) => some ((String.mk k, v) :: fs, r5)
                    | none => none
                  else if e = rbrace then some ([(String.mk k, v)], r4)
                  else none
                | [] => none
              | none => none
            else none
          | [] => none
        | none => none
      else none

/-- Parse the elements of a JSON array after its opening bracket, knowing
the array is nonempty; returns the elements and the input after the
closing bracket. -/
def parseElems : Nat → List Char → Option (List Json × List Char)
  | 0, _ => none
  | fuel + 1, input =>
    match parseVal fuel input with
    | some (v, r1) =>
      match skipWs r1 with
      | e :: r2 =>
        if e = ',' then
          match parseElems fuel r2 with
          | some (xs, r3) => some (v :: xs, r3)
          | none => none
        else if e = ']' then some ([v], r2)
        else none
      | [] => none
    | none => none

end

/-- Parse a complete JSON document, modelling `json.loads` as invoked by
`response.json()`: one value, with only whitespace allowed after it. -/
def parseJson (s : String) : Option Json :=
  match parseVal (s.data.length + 2) s.data with
  | some (j, rest) => if skipWs rest = [] then some j else none
  | none => none

/-- The constant `url` of the script. -/
def url : String := "http://162.105.151.213:2000/api/problem/getProblem"

/-- The constant `headers` dict of the script (one entry). -/
def headers : List (String × String) := [("Content-Type", "application/json")]

/-- The constant `data` dict of the script, in its insertion order. -/
def data : Json := .obj
  [ ("displayId", .num 1002)
  , ("discussionCount", .bool true)
  , ("judgeInfo", .bool true)
  , ("judgeInfoToBePreprocessed", .bool true)
  , ("lastSubmissionAndLastAcceptedSubmission", .bool true)
  , ("localizedContentsOfLocale", .str "zh_CN")
  , ("permissionOfCurrentUser", .bool true)
  , ("samples", .bool true)
  , ("statistics", .bool true)
  , ("tagsOfLocale", .str "zh_CN")
  ]

/-- An HTTP request as assembled by a call to `requests.post`. -/
structure Request where
  method : String
  reqUrl : String
  reqHeaders : List (String × String)
  body : String
  timeout : Nat

/-- The one request the script builds:
`requests.post(url, headers=headers, data=json.dumps(data), timeout=10)`. -/
def theRequest : Request :=
  { method := "POST"
  , reqUrl := url
  , reqHeaders := headers
  , body := jsonDumps data
  , timeout := 10 }

/-- Python exceptions the run can involve. The first three model
`requests` exception classes raised by `requests.post`; `jsonDecodeError`
models the decoding failure `response.json()` raises on a malformed body
(per the spec, this failure is not a `RequestException` and is not
separately handled in the source). -/
inductive PyExc where
  | reqTimeout (desc : String) : PyExc
  | connectionError (desc : String) : PyExc
  | otherRequestError (desc : String) : PyExc
  | jsonDecodeError (desc : String) : PyExc

/-- The message text of an exception, what Python's `str(e)` yields. -/
def PyExc.desc : PyExc → String
  | .reqTimeout d => d
  | .connectionError d => d
  | .otherRequestError d => d
  | .jsonDecodeError d => d

/-- Class test performed by `except requests.exceptions.Timeout`. -/
def isTimeoutClass : PyExc → Bool
  | .reqTimeout _ => true
  | _ => false

/-- Class test performed by `except requests.exceptions.RequestException`:
`Timeout`, `ConnectionError` and every other `requests` failure are
subclasses of `RequestException`; a JSON-decoding failure is not. -/
def isRequestExceptionClass : PyExc → Bool
  | .jsonDecodeError _ => false
  | _ => true

/-- The outcome of the single network round trip performed by
`requests.post`: either some HTTP response (status code and raw body)
arrives within the timeout, or the call raises an exception. -/
inductive NetOutcome where
  | response (status : Nat) (body : String) : NetOutcome
  | raise (e : PyExc) : NetOutcome

/-- One `print` call of the script: either the decoded JSON response value
(`print(response.json())`) or one of the two error messages. -/
inductive Printed where
  | jsonValue (j : Json) : Printed
  | timeoutMsg : Printed
  | requestErrMsg (desc : String) : Printed

/-- The exact text a message `print` writes, for the two message shapes;
`none` for the success print, which writes the Python repr of the decoded
value. -/
def Printed.messageText : Printed → Option String
  | .timeoutMsg => some "请求超时"
  | .requestErrMsg d => some ("请求错误: " ++ d)
  | .jsonValue _ => none

/-- The body of the `try` block, given the network outcome: on a received
response, decode it with `response.json()` and print the value (a decoding
failure raises); on a raising `requests.post`, propagate the exception. -/
def tryBody : NetOutcome → Except PyExc (List Printed)
  | .response _status body =>
    match parseJson body with
    | some j => .ok [.jsonValue j]
    | none => .error (.jsonDecodeError "Expecting value")
  | .raise e => .error e

/-- The two `except` clauses, tried in source order: `Timeout` first, then
`RequestException`; an exception matching neither class propagates
uncaught. -/
def dispatch : Except PyExc (List Printed) → Except PyExc (List Printed)
  | .ok out => .ok out
  | .error e =>
    if isTimeoutClass e then .ok [.timeoutMsg]
    else if isRequestExceptionClass e then .ok [.requestErrMsg e.desc]
    else .error e

/-- The whole run of the script as a function of the network outcome:
the list of requests sent (always the single fixed request) paired with
either the printed output (normal termination) or the uncaught exception
(crash). -/
def runScript (net : NetOutcome) : List Request × Except PyExc (List Printed) :=
  ([theRequest], dispatch (tryBody net))

/-- C1: on every run the script sends the single fixed request, and its
body, parsed as JSON, is exactly the ten-key payload of the data model —
displayId=1002, discussionCount=true, judgeInfo=true,
judgeInfoToBePreprocessed=true, lastSubmissionAndLastAcceptedSubmission=true,
localizedContentsOfLocale="zh_CN", permissionOfCurrentUser=true,
samples=true, statistics=true, tagsOfLocale="zh_CN" — with no extra keys
and no omitted keys. -/
theorem c1_outgoing_body_is_exact_payload :
    (∀ net, (runScript net).1 = [theRequest]) ∧
    parseJson theRequest.body = some (Json.obj
      [ ("displayId", .num 1002)
      , ("discussionCount", .bool true)
      , ("judgeInfo", .bool true)
      , ("judgeInfoToBePreprocessed", .bool true)
      , ("lastSubmissionAndLastAcceptedSubmission", .bool true)
      , ("localizedContentsOfLocale", .str "zh_CN")
      , ("permissionOfCurrentUser", .bool true)
      , ("samples", .bool true)
      , ("statistics", .bool true)
      , ("tagsOfLocale", .str "zh_CN")
      ]) :=
  ⟨fun _ => rfl, by rfl⟩

/-- C2: on a 200 response with body `\x7b"displayId":1002,"title":"Example"\x7d`
the script terminates normally, printing exactly the decoded JSON value,
whose `displayId` and `title` fields hold exactly 1002 and "Example". -/
theorem c2_success_parses_and_prints :
    runScript (.response 200 "\x7b\"displayId\":1002,\"title\":\"Example\"\x7d") =
      ([theRequest], .ok [.jsonValue (Json.obj
        [("displayId", .num 1002), ("title", .str "Example")])]) ∧
    (Json.obj [("displayId", .num 1002), ("title", .str "Example")]).lookup
      "displayId" = some (.num 1002) ∧
    (Json.obj [("displayId", .num 1002), ("title", .str "Example")]).lookup
      "title" = some (.str "Example") :=
  ⟨by rfl, rfl, rfl⟩

/-- C3: on a timeout the script prints exactly the fixed timeout message
"请求超时", sends only the one request (no retry), and terminates normally
(the result is `.ok`, not an uncaught exception). -/
theorem c3_timeout_prints_fixed_message (d : String) :
    runScript (.raise (.reqTimeout d)) = ([theRequest], .ok [Printed.timeoutMsg]) ∧
    Printed.timeoutMsg.messageText = some "请求超时" :=
  ⟨rfl, rfl⟩

/-- C4: on any request-level failure other than timeout, the script prints
exactly one message whose text contains the description of the underlying
error, sends only the one request, and terminates normally. -/
theorem c4_other_request_failures (e : PyExc)
    (hreq : isRequestExceptionClass e = true) (ht : isTimeoutClass e = false) :
    runScript (.raise e) = ([theRequest], .ok [.requestErrMsg e.desc]) ∧
    (Printed.requestErrMsg e.desc).messageText = some ("请求错误: " ++ e.desc) := by
  cases e with
  | reqTimeout d => exact absurd ht (by simp [isTimeoutClass])
  | jsonDecodeError d => exact absurd hreq (by simp [isRequestExceptionClass])
  | connectionError d => exact ⟨rfl, rfl⟩
  | otherRequestError d => exact ⟨rfl, rfl⟩

/-- Witness for C4 at a concrete connection-refused failure. -/
theorem c4_other_request_failures_witness :
    isRequestExceptionClass (.connectionError "Connection refused") = true ∧
    isTimeoutClass (.connectionError "Connection refused") = false ∧
    runScript (.raise (.connectionError "Connection refused")) =
      ([theRequest], .ok [.requestErrMsg "Connection refused"]) :=
  ⟨rfl, rfl,
    (c4_other_request_failures (.connectionError "Connection refused") rfl rfl).1⟩

/-- C5: every request the script sends is an HTTP POST whose URL ends in
`/api/problem/getProblem` (it is the fixed URL of the script) and whose
headers carry `Content-Type: application/json`. -/
theorem c5_request_shape (net : NetOutcome) (r : Request)
    (hr : r ∈ (runScript net).1) :
    r.method = "POST" ∧ r.reqUrl = url ∧
    "/api/problem/getProblem".data <:+ r.reqUrl.data ∧
    ("Content-Type", "application/json") ∈ r.reqHeaders := by
  have h : r = theRequest := List.mem_singleton.mp hr
  subst h
  exact ⟨rfl, rfl, ⟨"http://162.105.151.213:2000".data, by rfl⟩,
    List.mem_singleton.mpr rfl⟩

/-- Witness for C5 at a concrete run and the request it sends. -/
theorem c5_request_shape_witness :
    theRequest ∈ (runScript (.raise (.reqTimeout "timed out"))).1 ∧
    (theRequest.method = "POST" ∧ theRequest.reqUrl = url ∧
     "/api/problem/getProblem".data <:+ theRequest.reqUrl.data ∧
     ("Content-Type", "application/json") ∈ theRequest.reqHeaders) :=
  ⟨List.mem_singleton.mpr rfl,
   c5_request_shape (.raise (.reqTimeout "timed out")) theRequest
     (List.mem_singleton.mpr rfl)⟩

/-- C6: the timeout bound configured on the one request the script sends
(the `timeout=10` argument of `requests.post`) equals exactly 10. -/
theorem c6_timeout_is_ten :
    theRequest.timeout = 10 ∧ ∀ net, ∀ r ∈ (runScript net).1, r.timeout = 10 := by
  refine ⟨rfl, fun net r hr => ?_⟩
  have h : r = theRequest := List.mem_singleton.mp hr
  subst h
  rfl

/-- C7: when a response is received but its body fails to parse as JSON,
the decoding failure belongs to neither handled exception class, so the
run ends in an uncaught exception rather than a printed message. -/
theorem c7_malformed_body_uncaught (status : Nat) (body : String)
    (h : parseJson body = none) :
    (runScript (.response status body)).2 =
      .error (.jsonDecodeError "Expecting value") ∧
    isTimeoutClass (.jsonDecodeError "Expecting value") = false ∧
    isRequestExceptionClass (.jsonDecodeError "Expecting value") = false := by
  refine ⟨?_, rfl, rfl⟩
  simp [runScript, tryBody, h, dispatch, isTimeoutClass, isRequestExceptionClass]

/-- Witness for C7 at a concrete non-JSON body. -/
theorem c7_malformed_body_uncaught_witness :
    parseJson "hello" = none ∧
    (runScript (.response 200 "hello")).2 =
      .error (.jsonDecodeError "Expecting value") :=
  ⟨by rfl, (c7_malformed_body_uncaught 200 "hello" (by rfl)).1⟩

/-- C8: for every possible network outcome the script sends exactly the
one fixed request — never a second request, never a retry. -/
theorem c8_exactly_one_request (net : NetOutcome) :
    (runScript net).1 = [theRequest] ∧ (runScript net).1.length = 1 :=
  ⟨rfl, rfl⟩

/-- C9: a timeout exception belongs to both handled classes, yet because
the `Timeout` clause precedes the `RequestException` clause, a timed-out
run prints the dedicated timeout message and never the request-error
message. -/
theorem c9_timeout_never_generic (d : String) :
    isTimeoutClass (.reqTimeout d) = true ∧
    isRequestExceptionClass (.reqTimeout d) = true ∧
    (runScript (.raise (.reqTimeout d))).2 = .ok [Printed.timeoutMsg] ∧
    ∀ s, Printed.requestErrMsg s ∉ [Printed.timeoutMsg] := by
  refine ⟨rfl, rfl, rfl, fun s h => ?_⟩
  simp at h

/-- C10: any received response is taken down the success path regardless
of its status code: whenever the body parses as JSON, the script prints
the decoded value (no error branch is taken). -/
theorem c10_any_status_success_path (status : Nat) (body : String) (j : Json)
    (h : parseJson body = some j) :
    runScript (.response status body) = ([theRequest], .ok [.jsonValue j]) := by
  simp [runScript, tryBody, h, dispatch]

/-- Witness for C10 at a concrete 404 response with a JSON body. -/
theorem c10_any_status_success_path_witness :
    parseJson "\x7b\"error\":\"Not Found\"\x7d" =
      some (Json.obj [("error", .str "Not Found")]) ∧
    runScript (.response 404 "\x7b\"error\":\"Not Found\"\x7d") =
      ([theRequest], .ok [.jsonValue (Json.obj [("error", .str "Not Found")])]) :=
  ⟨by rfl,
   c10_any_status_success_path 404 "\x7b\"error\":\"Not Found\"\x7d"
     (Json.obj [("error", .str "Not Found")]) (by rfl)⟩

/-- Witness for C1 at a concrete network outcome. -/
theorem c1_outgoing_body_is_exact_payload_witness :
    (runScript (.response 200 "1")).1 = [theRequest] :=
  c1_outgoing_body_is_exact_payload.1 (.response 200 "1")

/-- Witness for C3 at a concrete timeout description. -/
theorem c3_timeout_prints_fixed_message_witness :
    runScript (.raise (.reqTimeout "timed out")) =
      ([theRequest], .ok [Printed.timeoutMsg]) :=
  (c3_timeout_prints_fixed_message "timed out").1

/-- Witness for C6 at a concrete run and the request it sends. -/
theorem c6_timeout_is_ten_witness :
    theRequest ∈ (runScript (.response 200 "1")).1 ∧ theRequest.timeout = 10 :=
  ⟨List.mem_singleton.mpr rfl,
   c6_timeout_is_ten.2 (.response 200 "1") theRequest (List.mem_singleton.mpr rfl)⟩

/-- Witness for C8 at a concrete network outcome. -/
theorem c8_exactly_one_request_witness :
    (runScript (.raise (.connectionError "refused"))).1 = [theRequest] :=
  (c8_exactly_one_request (.raise (.connectionError "refused"))).1

/-- Witness for C9 at a concrete timeout description and message. -/
theorem c9_timeout_never_generic_witness :
    (runScript (.raise (.reqTimeout "t"))).2 = .ok [Printed.timeoutMsg] ∧
    Printed.requestErrMsg "x" ∉ [Printed.timeoutMsg] :=
  ⟨(c9_timeout_never_generic "t").2.2.1, (c9_timeout_never_generic "t").2.2.2 "x"⟩
